import Mathlib

/-!
Verification of the msx_grid grid-trading engine (src/msx/grid.py,
src/msx/exchange.py, src/app.py) against its natural-language
specification.  Prices, volumes and monetary amounts are embedded as
rationals; Python float arithmetic on them is exact for the claims at
hand.  Python truthiness of optional ids and strings is modelled
explicitly.  The per-symbol strategy dictionary created by
GridStrategy._create_symbol_data becomes the SymbolData structure; the
per-position persisted files become an explicit DataStore value.
-/

namespace Msx

/-- A position id as stored in Position.id.  The adapter normally stores
an int (exchange.py line 1394); one branch of MsxExchange.fetch_positions
stores the marker string "no pos 1137" (exchange.py line 1383), so the
Python field holds either. -/
inductive PosIdVal where
  | num (n : Int)
  | tag (s : String)
deriving Repr, DecidableEq

/-- Python truthiness of a PosIdVal: int 0 and the empty string are falsy. -/
def PosIdVal.truthy : PosIdVal → Bool
  | .num n => n != 0
  | .tag s => s != ""

/-- Python truthiness of an Optional position id (None is falsy). -/
def posIdTruthy : Option PosIdVal → Bool
  | none => false
  | some v => v.truthy

/-- Python str.upper, over the character list (ASCII-compatible like the
symbols this engine handles). -/
def pyUpper (s : String) : String := String.mk (s.data.map Char.toUpper)

/-- Python str.lower, over the character list. -/
def pyLower (s : String) : String := String.mk (s.data.map Char.toLower)

/-- Python str.strip: whitespace removed from both ends. -/
def pyStrip (s : String) : String :=
  String.mk (((s.data.dropWhile (·.isWhitespace)).reverse.dropWhile
    (·.isWhitespace)).reverse)

/-- OrderInfo (src/msx/models.py lines 11-37).  Fields irrelevant to the
claims (msg, amount, code) are kept for fidelity of the record; note the
dataclass has NO posId field. -/
structure OrderInfo where
  id : Option String
  price : ℚ
  volume : ℚ
  side : String
  status : String
  timestamp : Nat
  msg : Option String
  pnl : ℚ
  fee : ℚ
  avgPrice : ℚ
  amount : ℚ
  open_type : Nat
  code : Int
deriving Repr, DecidableEq

/-- Position (src/msx/models.py lines 40-75).  The raw dict is reduced to
the posMargin value start() reads from it, together with the dict's
Python truthiness. -/
structure Position where
  id : Option PosIdVal
  size : ℚ
  amount : ℚ
  entryPrice : ℚ
  unrealizedPnl : ℚ
  liquidationPrice : ℚ
  timestamp : Nat
  side : String
  rawTruthy : Bool
  rawPosMargin : ℚ
deriving Repr, DecidableEq

/-- The default Position() value (dataclass defaults). -/
def Position.default : Position :=
  { id := none, size := 0, amount := 0, entryPrice := 0, unrealizedPnl := 0
    liquidationPrice := 0, timestamp := 0, side := "", rawTruthy := false
    rawPosMargin := 0 }

/-- One record of symbol_data.his_order, as built by
GridStrategy.process_order_statistics (grid.py lines 662-676) and as one
row of the persisted CSV ledger.  The dict key "type" is always None
there (OrderInfo has no type attribute) and is not a CSV column, so it
is omitted. -/
structure TradeRec where
  order_id : Option String
  symbol : String
  side : String
  open_type : Nat
  price : ℚ
  volume : ℚ
  pnl : ℚ
  fee : ℚ
  timestamp : Nat
  status : String
  pos_id : Option PosIdVal
  avg_price : ℚ
deriving Repr, DecidableEq

/-- The per-symbol strategy dictionary (GridStrategy._create_symbol_data,
grid.py lines 90-148).  The Python keys with a leading underscore are
renamed: "_status" becomes statusFlag and the initialized flag becomes
initFlag.  The stats sub-dict and _run_task are not read by any claim
and are omitted. -/
structure SymbolData where
  symbol : Option String
  min_price : Option ℚ
  max_price : Option ℚ
  direction : Option String
  grid_spacing : Option ℚ
  investment_amount : Option ℚ
  leverage : Option ℚ
  total_capital : Option ℚ
  asset_type : Option String
  market_type : Option String
  co_type : Option Int
  current_price : Option ℚ
  start_price : Option ℚ
  buy_order : Option OrderInfo
  sell_order : Option OrderInfo
  position : Position
  his_order : List TradeRec
  statusFlag : Bool
  initFlag : Bool
  last_filled_time : Nat
  each_order_size : Option ℚ
  min_order_size : ℚ
deriving Repr, DecidableEq

/-- The fresh dictionary returned by _create_symbol_data (grid.py lines
97-148): every field None/empty, _status and the initialized flag False,
last_filled_time 0, min_order_size 10. -/
def createSymbolData : SymbolData :=
  { symbol := none, min_price := none, max_price := none, direction := none
    grid_spacing := none, investment_amount := none, leverage := none
    total_capital := none, asset_type := none, market_type := none
    co_type := none, current_price := none, start_price := none
    buy_order := none, sell_order := none, position := Position.default
    his_order := [], statusFlag := false, initFlag := false
    last_filled_time := 0, each_order_size := none, min_order_size := 10 }

/-- A create_order request as assembled by GridStrategy._execute_order
(grid.py lines 1272-1308). -/
structure OrderRequest where
  symbol : String
  side : String
  volume : ℚ
  open_type : Nat
  price : Option ℚ
  order_type : String
deriving Repr, DecidableEq

/-- GridStrategy._execute_order up to the create_order call (grid.py
lines 1258-1308): the request actually submitted to the adapter, or none
when a guard returns early (volume <= 0, or a limit order without a
price). -/
def execute_order_request (symbol side : String) (volume : ℚ) (open_type : Nat)
    (price : Option ℚ) (order_type : String) : Option OrderRequest :=
  if volume ≤ 0 then none
  else if order_type = "limit" ∧ price = none then none
  else some { symbol := symbol, side := side, volume := volume
              open_type := open_type, price := price, order_type := order_type }

/-- GridStrategy._place_grid_orders (grid.py lines 1050-1146), as the list
of limit-order requests submitted to the adapter (buy side first).  The
early-return guards of lines 1081-1092 are mirrored in order; the
open/close type and the side string follow lines 1099-1107; the buy is
submitted only when new_buy_price >= min_price (line 1110), the sell only
when new_sell_price <= max_price and position.size > 0 (line 1128), with
sell volume min(position.size, order_volume) (line 1129). -/
def place_grid_orders (sd : SymbolData) (symbol : String)
    (filled_price order_volume : Option ℚ) : List OrderRequest :=
  match filled_price with
  | none => []
  | some p =>
    match sd.grid_spacing with
    | none => []
    | some g =>
      match sd.min_price, sd.max_price with
      | some mn, some mx =>
        match order_volume with
        | none => []
        | some v =>
          if v ≤ 0 then []
          else
            let new_buy_price := p * (1 - g)
            let new_sell_price := p * (1 + g)
            let buy_open_type : Nat := if sd.direction = some "long" then 1 else 2
            let sell_open_type : Nat := if sd.direction = some "long" then 2 else 1
            let side := if sd.direction = some "long" then "buy" else "sell"
            let buys :=
              if new_buy_price ≥ mn then
                (execute_order_request symbol side v buy_open_type
                  (some new_buy_price) "limit").toList
              else []
            let sells :=
              if new_sell_price ≤ mx ∧ sd.position.size > 0 then
                (execute_order_request symbol side (min sd.position.size v)
                  sell_open_type (some new_sell_price) "limit").toList
              else []
            buys ++ sells
      | _, _ => []

/-! ### Fill detection and resolution (GridStrategy.check_order) -/

/-- The set of currently-open order ids, grid.py line 556: ids with Python
truthiness (None and "" excluded). -/
def order_id_set (orders : List OrderInfo) : List String :=
  orders.filterMap fun o =>
    match o.id with
    | some i => if i ≠ "" then some i else none
    | none => none

/-- Python membership test of an Optional id in the open-id set. -/
def optIdMem (i : Option String) (ids : List String) : Bool :=
  match i with
  | some s => ids.contains s
  | none => false

/-- Lines 559-560: a tracked order is inferred filled exactly when it exists
and its id is not in the open-order id set. -/
def order_filled (tracked : Option OrderInfo) (ids : List String) : Bool :=
  match tracked with
  | some o => !(optIdMem o.id ids)
  | none => false

/-- Lines 571-572 and 576-577: the cancel_order call is issued only when the
tracked opposite order exists and has a truthy id. -/
def cancel_ids_of (tracked : Option OrderInfo) : List String :=
  match tracked with
  | some o =>
    match o.id with
    | some i => if i ≠ "" then [i] else []
    | none => []
  | none => []

/-- What one steady-state resolution pass does: the ids passed to
cancel_order, and the (price, volume) pair passed to _place_grid_orders
(none when nothing is re-anchored). -/
structure CheckResult where
  cancelled : List String
  reanchor : Option (ℚ × ℚ)
deriving Repr, DecidableEq

/-- The resolution core of GridStrategy.check_order (grid.py lines 550-578).
open_orders is the adapter's open-order list for the symbol; his is what
fetch_his_order would return in the both-filled branch (None models a
failed fetch). -/
def check_order_resolution (buy sell : Option OrderInfo)
    (open_orders : List OrderInfo) (his : Option (List OrderInfo)) : CheckResult :=
  let ids := order_id_set open_orders
  let buy_filled := order_filled buy ids
  let sell_filled := order_filled sell ids
  if buy_filled && sell_filled then
    match his with
    | some (last :: _) => ⟨[], some (last.price, last.volume)⟩
    | _ => ⟨[], none⟩
  else if buy_filled then
    match buy with
    | some b => ⟨cancel_ids_of sell, some (b.price, b.volume)⟩
    | none => ⟨[], none⟩
  else if sell_filled then
    match sell with
    | some s => ⟨cancel_ids_of buy, some (s.price, s.volume)⟩
    | none => ⟨[], none⟩
  else ⟨[], none⟩

/-! ### Strategy admission (GridStrategy.start, grid.py lines 1363-1622) -/

/-- The numeric/typed view of the params dict once every required key is
present and every numeric field parses as a float (the float() and int()
conversions of lines 1417-1461 succeed); a missing or unparsable value
makes the Python code return failed without touching the registry, the
same conclusion the claim asserts. -/
structure StartParams where
  symbol : String
  min_price : ℚ
  max_price : ℚ
  direction : String
  grid_spacing : ℚ
  investment_amount : ℚ
  leverage : ℚ
  asset_type : String
  market_type : String
  co_type_param : Option Int
deriving Repr, DecidableEq

/-- The adapter responses start() consumes: fetch_account (whether it
raises, and the balance it reports) and fetch_positions(symbol).  The
set_leverage call of lines 1527-1546 only logs its outcome and is not
modelled. -/
structure StartEnv where
  account_fetch_raises : Bool
  balance : ℚ
  positions : Option (List Position)
deriving Repr, DecidableEq

/-- Lines 1553-1561: posMargin summed over fetched positions with size > 0
and a truthy raw dict. -/
def position_margin_sum (ps : Option (List Position)) : ℚ :=
  match ps with
  | none => 0
  | some l => l.foldl (fun acc p =>
      if 0 < p.size ∧ p.rawTruthy then acc + p.rawPosMargin else acc) 0

/-- The structured result start() returns to its caller. -/
structure StartResult where
  status : String
  message : String
deriving Repr, DecidableEq

/-- The sequential parameter checks of grid.py lines 1406-1475, in the
order the code raises: the first violated check's message, or none when
every check passes. -/
def validate_start_params (reg : List (String × SymbolData))
    (p : StartParams) : Option String :=
  if pyStrip p.symbol = "" then some "symbol must be a nonempty string"
  else if reg.any (fun e => e.1 == pyUpper (pyStrip p.symbol)) then some "strategy already exists"
  else if p.min_price ≤ 0 then some "min_price must be positive"
  else if p.max_price ≤ 0 then some "max_price must be positive"
  else if p.min_price ≥ p.max_price then some "min_price must be below max_price"
  else if ¬(pyLower p.direction = "long" ∨ pyLower p.direction = "short") then some "bad direction"
  else if p.grid_spacing ≤ 0 ∨ p.grid_spacing ≥ 1 then some "bad grid_spacing"
  else if p.investment_amount ≤ 0 then some "bad investment_amount"
  else if p.leverage ≤ 0 then some "leverage must be positive"
  else if p.leverage > 100 then some "leverage must not exceed 100"
  else if ¬(p.asset_type = "crypto" ∨ p.asset_type = "stock") then some "bad asset_type"
  else if ¬(p.market_type = "spot" ∨ p.market_type = "contract") then some "bad market_type"
  else none

/-- GridStrategy.start (grid.py lines 1363-1622) as a pure function from
the params, adapter responses and current registry to the returned result
and the registry afterwards.  Every raise inside the try-block is caught
at line 1616 and becomes a failed result, so each validation failure maps
to an early return carrying the unchanged registry. -/
def grid_start (env : StartEnv) (reg : List (String × SymbolData))
    (p : StartParams) : StartResult × List (String × SymbolData) :=
  let fail := fun (m : String) => (StartResult.mk "failed" m, reg)
  match validate_start_params reg p with
  | some m => fail m
  | none =>
        let symbol := pyUpper (pyStrip p.symbol)
        let direction := pyLower p.direction
        let co_resolved : Except String (Option Int) :=
          match p.co_type_param with
          | some c =>
            if ¬(c = 1 ∨ c = 3) then .error "bad co_type"
            else if p.market_type ≠ "contract" then .error "co_type only for contract"
            else .ok (some c)
          | none =>
            if p.market_type = "spot" then .ok none
            else if p.asset_type = "stock" then .ok (some 1)
            else .ok (some 3)
        match co_resolved with
        | .error m => fail m
        | .ok co_type =>
          if env.account_fetch_raises then fail "cannot fetch account balance"
          else
            let margin := position_margin_sum env.positions
            if env.balance + margin < p.investment_amount then fail "insufficient balance"
            else
              let total_capital := p.investment_amount * p.leverage
              let sd := { createSymbolData with
                symbol := some symbol
                min_price := some p.min_price
                max_price := some p.max_price
                direction := some direction
                grid_spacing := some p.grid_spacing
                investment_amount := some p.investment_amount
                leverage := some p.leverage
                asset_type := some p.asset_type
                market_type := some p.market_type
                co_type := co_type
                total_capital := some total_capital
                statusFlag := true }
              (StartResult.mk "success" "started", reg ++ [(symbol, sd)])

/-! ### Initialization step 4 and the run-loop init gate (claims C4) -/

/-- Grid.py lines 371-389: the each_order_size computation and the
minimum-notional check inside GridStrategy._init_.  A raise (total
capital unset or non-positive, line 374; notional below minimum, line
388) is an error value; reading an unset price or spacing field would
raise a TypeError in Python and is an error value too. -/
def init_each_order_size (sd : SymbolData) : Except String ℚ :=
  match sd.total_capital with
  | none => .error "total capital not initialized"
  | some tc =>
    if tc ≤ 0 then .error "total capital not initialized"
    else
      match sd.min_price, sd.max_price, sd.grid_spacing with
      | some mn, some mx, some g =>
        let avg_price := (mn + mx) / 2
        let price_range := mx - mn
        let each := if 0 < price_range ∧ 0 < avg_price then tc * g / price_range else 0
        if each * mn < sd.min_order_size then .error "order notional below minimum"
        else .ok each
      | _, _, _ => .error "missing price parameters"

/-- The effect of one _init_ attempt on the claim-relevant fields, for a
strategy that already holds its position: step 4 (lines 371-389) either
raises, leaving the initialized flag untouched, or records
each_order_size, after which step 7 (lines 419-424) sets the flag. -/
def init_attempt (sd : SymbolData) : Except String SymbolData :=
  match init_each_order_size sd with
  | .error e => .error e
  | .ok each => .ok { sd with each_order_size := some each, initFlag := true }

/-- Run-loop gate, grid.py lines 466-481: on a tick, _init_ is invoked for
a symbol exactly when its _status flag is set, it is tradable, and it is
not yet initialized. -/
def run_tick_invokes_init (sd : SymbolData) (is_trading : Bool) : Bool :=
  sd.statusFlag && is_trading && !sd.initFlag

/-- One tick of the run loop restricted to the initialization call: an
exception from _init_ is caught at the per-symbol boundary (lines
490-494) and the symbol's state keeps its un-initialized flag. -/
def run_tick_init (sd : SymbolData) (is_trading : Bool) : SymbolData :=
  if run_tick_invokes_init sd is_trading then
    match init_attempt sd with
    | .ok sd2 => sd2
    | .error _ => sd
  else sd

/-! ### Statistics ingestion (GridStrategy.process_order_statistics) -/

/-- Stable insertion keeping ascending timestamps (models Python's stable
list.sort with key timestamp, grid.py line 644). -/
def sort_insert_ts (o : OrderInfo) : List OrderInfo → List OrderInfo
  | [] => [o]
  | x :: xs => if o.timestamp ≤ x.timestamp then o :: x :: xs else x :: sort_insert_ts o xs

/-- Ascending stable sort of orders by timestamp. -/
def sort_by_ts : List OrderInfo → List OrderInfo
  | [] => []
  | x :: xs => sort_insert_ts x (sort_by_ts xs)

/-- The record dict built at grid.py lines 662-676.  OrderInfo carries no
symbol attribute, so getattr falls back to the strategy's symbol; the
numeric fields go through float(x or 0.0), the identity on rationals. -/
def trade_record_of (symbol : String) (pos_id : Option PosIdVal)
    (o : OrderInfo) : TradeRec :=
  { order_id := o.id, symbol := symbol, side := o.side, open_type := o.open_type
    price := o.price, volume := o.volume, pnl := o.pnl, fee := o.fee
    timestamp := o.timestamp, status := o.status, pos_id := pos_id
    avg_price := o.avgPrice }

/-- Line 687: max over the truthy (nonzero) timestamps of the in-memory
history; none models the ValueError Python's max() raises on an empty
generator. -/
def max_truthy_ts (l : List TradeRec) : Option Nat :=
  l.foldl (fun acc r =>
    if r.timestamp ≠ 0 then
      some (match acc with
            | none => r.timestamp
            | some m => max m r.timestamp)
    else acc) none

/-- The outcome of one statistics pass: the symbol state afterwards, the
(pos_id, record) pairs handed to CSV persistence, and whether the pass
raised (the exception is caught at the run loop's per-symbol boundary). -/
structure StatOutcome where
  sd : SymbolData
  csv_writes : List (PosIdVal × TradeRec)
  raised : Bool
deriving Repr, DecidableEq

/-- GridStrategy.process_order_statistics (grid.py lines 595-688).
fetched is what fetch_his_order returned (none models a failed fetch,
caught at lines 621-624).  When position.id is falsy, the pos_id chain at
lines 655-660 reads o.posId on the first new order, an attribute the
OrderInfo dataclass does not define (src/msx/models.py), so the pass
raises AttributeError before appending anything; when position.id is
truthy every record carries it and is persisted. -/
def process_order_statistics (symbol : String) (sd : SymbolData)
    (fetched : Option (List OrderInfo)) : StatOutcome :=
  match fetched with
  | none => ⟨sd, [], false⟩
  | some his_orders =>
    if his_orders.isEmpty then ⟨sd, [], false⟩
    else
      let filled := his_orders.filter fun o =>
        ((o.status = "filled" ∨ o.status = "executed") ∧ o.timestamp ≠ 0 : Prop)
      if filled.isEmpty then ⟨sd, [], false⟩
      else
        let lft := sd.last_filled_time
        let new_filled := filled.filter fun o => (lft < o.timestamp : Prop)
        if new_filled.isEmpty then ⟨sd, [], false⟩
        else
          if posIdTruthy sd.position.id then
            let recs := (sort_by_ts new_filled).map (trade_record_of symbol sd.position.id)
            let his2 := sd.his_order ++ recs
            let writes := recs.filterMap fun r =>
              match r.pos_id with
              | some p => if p.truthy then some (p, r) else none
              | none => none
            match max_truthy_ts his2 with
            | some m => ⟨{ sd with his_order := his2, last_filled_time := max lft m }, writes, false⟩
            | none => ⟨{ sd with his_order := his2 }, writes, true⟩
          else
            ⟨sd, [], true⟩

/-- A sequence of statistics ticks: the symbol state after folding the
per-tick fetch results. -/
def process_stat_seq (symbol : String) (sd : SymbolData)
    (fs : List (Option (List OrderInfo))) : SymbolData :=
  fs.foldl (fun s f => (process_order_statistics symbol s f).sd) sd

/-! ### Persistence layer (claims C5, C8) -/

/-- One line of a per-position ledger CSV: the header row or a data row. -/
inductive CsvLine where
  | header
  | row (r : TradeRec)
deriving Repr, DecidableEq

/-- The JSON snapshot written by _persist_strategy_info (grid.py lines
866-883). -/
structure StrategyInfoFile where
  pos_id : Option PosIdVal
  symbol : String
  min_price : Option ℚ
  max_price : Option ℚ
  direction : Option String
  grid_spacing : Option ℚ
  investment_amount : Option ℚ
  leverage : Option ℚ
  total_capital : Option ℚ
  asset_type : Option String
  market_type : Option String
  co_type : Option Int
  start_price : Option ℚ
  each_order_size : Option ℚ
  last_filled_time : Nat
  saved_at : String
deriving Repr, DecidableEq

/-- The durable files under data/, keyed by position id: one optional
configuration snapshot and one optional ledger file per id. -/
structure DataStore where
  json_files : List (PosIdVal × StrategyInfoFile)
  csv_files : List (PosIdVal × List CsvLine)
deriving Repr, DecidableEq

/-- Find the value stored under a key in an association list (the model of
a directory keyed by position id, and of a dict keyed by symbol). -/
def assocFind {α : Type} : List (PosIdVal × α) → PosIdVal → Option α
  | [], _ => none
  | e :: t, k => if e.1 == k then some e.2 else assocFind t k

/-- Store a value under a key: replace the key's entry or append a new one. -/
def assocSet {α : Type} : List (PosIdVal × α) → PosIdVal → α → List (PosIdVal × α)
  | [], k, v => [(k, v)]
  | e :: t, k, v => if e.1 == k then (e.1, v) :: t else e :: assocSet t k v

/-- Look up the configuration snapshot file for a position id. -/
def lookupJson (ds : DataStore) (k : PosIdVal) : Option StrategyInfoFile :=
  assocFind ds.json_files k

/-- Look up the ledger file for a position id. -/
def lookupCsv (ds : DataStore) (k : PosIdVal) : Option (List CsvLine) :=
  assocFind ds.csv_files k

/-- Write the ledger file for a position id (create or replace content). -/
def setCsv (ds : DataStore) (k : PosIdVal) (content : List CsvLine) : DataStore :=
  { ds with csv_files := assocSet ds.csv_files k content }

/-- GridStrategy._persist_order_to_csv (grid.py lines 770-819): open in
append mode, write the header only when the file did not exist, then
write exactly one data row. -/
def persist_order_to_csv (ds : DataStore) (pos_id : PosIdVal)
    (r : TradeRec) : DataStore :=
  match lookupCsv ds pos_id with
  | none => setCsv ds pos_id [CsvLine.header, CsvLine.row r]
  | some c => setCsv ds pos_id (c ++ [CsvLine.row r])

/-- The snapshot dict assembled at grid.py lines 866-883. -/
def strategy_snapshot (symbol : String) (pos_id : PosIdVal) (sd : SymbolData)
    (saved_at : String) : StrategyInfoFile :=
  { pos_id := some pos_id, symbol := symbol
    min_price := sd.min_price, max_price := sd.max_price
    direction := sd.direction, grid_spacing := sd.grid_spacing
    investment_amount := sd.investment_amount, leverage := sd.leverage
    total_capital := sd.total_capital, asset_type := sd.asset_type
    market_type := sd.market_type, co_type := sd.co_type
    start_price := sd.start_price, each_order_size := sd.each_order_size
    last_filled_time := sd.last_filled_time, saved_at := saved_at }

/-- GridStrategy._persist_strategy_info (grid.py lines 821-893): resolve the
position id (tracked position first, else the first fetched position with
a truthy id, which is also written back onto the tracked position); skip
when no id; write the snapshot only when the {pos_id}.json file does not
already exist. -/
def persist_strategy_info (ds : DataStore) (symbol : String) (sd : SymbolData)
    (fetched : Option (List Position)) (saved_at : String) : DataStore × SymbolData :=
  let resolved : Option PosIdVal × SymbolData :=
    if posIdTruthy sd.position.id then (sd.position.id, sd)
    else
      match fetched with
      | some (pos :: _) =>
        match pos.id with
        | some pid =>
          if pid.truthy then
            (some pid, { sd with position := { sd.position with id := some pid } })
          else (none, sd)
        | none => (none, sd)
      | _ => (none, sd)
  match resolved.1 with
  | none => (ds, resolved.2)
  | some pid =>
    match lookupJson ds pid with
    | some _ => (ds, resolved.2)
    | none =>
      ({ ds with json_files :=
          assocSet ds.json_files pid (strategy_snapshot symbol pid resolved.2 saved_at) },
       resolved.2)

/-! ### Startup recovery (GridStrategy.load_strategy, grid.py 895-1048) -/

/-- Stable insertion of a trade record keeping ascending timestamps. -/
def sort_insert_rec (r : TradeRec) : List TradeRec → List TradeRec
  | [] => [r]
  | x :: xs => if r.timestamp ≤ x.timestamp then r :: x :: xs else x :: sort_insert_rec r xs

/-- Ascending stable sort of trade records by timestamp (grid.py line 757). -/
def sort_recs_by_ts : List TradeRec → List TradeRec
  | [] => []
  | x :: xs => sort_insert_rec x (sort_recs_by_ts xs)

/-- GridStrategy._load_orders_from_csv (grid.py lines 690-768): read the
ledger file, keep data rows with a positive timestamp, sort ascending,
and report the maximum timestamp among the kept rows (0 when the file is
missing or holds none). -/
def load_orders_from_csv (ds : DataStore) (pos_id : PosIdVal) :
    List TradeRec × Nat :=
  match lookupCsv ds pos_id with
  | none => ([], 0)
  | some lines =>
    let recs := lines.filterMap fun l =>
      match l with
      | .header => none
      | .row r => if 0 < r.timestamp then some r else none
    let maxTs := recs.foldl (fun m r => max m r.timestamp) 0
    (sort_recs_by_ts recs, maxTs)

/-- The position snapshot copied field by field onto the fresh Position()
at grid.py lines 1001-1008 (the raw dict is not copied). -/
def copy_loaded_position (position : Position) : Position :=
  { Position.default with
    id := position.id, size := position.size, amount := position.amount
    entryPrice := position.entryPrice, unrealizedPnl := position.unrealizedPnl
    side := position.side, liquidationPrice := position.liquidationPrice
    timestamp := position.timestamp }

/-- The loop body of load_strategy (grid.py lines 935-1033) for one valid
position: skip when the {pos_id}.json file is missing, the file's symbol
is blank, the file's pos_id mismatches, or the symbol is already
registered; otherwise build the symbol data from the file and the live
position, replay the ledger, raise last_filled_time to the ledger maximum
when larger, register it, and set _status true.  The initialized flag is
never assigned, so it keeps the template's False. -/
def load_step (ds : DataStore) (acc : List (String × SymbolData) × Nat)
    (position : Position) : List (String × SymbolData) × Nat :=
  match position.id with
  | none => acc
  | some pid =>
    match lookupJson ds pid with
    | none => acc
    | some info =>
      let symbol := pyUpper (pyStrip info.symbol)
      if symbol = "" then acc
      else if (match info.pos_id with
               | some f => f.truthy && f != pid
               | none => false) then acc
      else if acc.1.any (fun e => e.1 == symbol) then acc
      else
        let loaded := load_orders_from_csv ds pid
        let lft := if info.last_filled_time < loaded.2 then loaded.2
                   else info.last_filled_time
        let sd := { createSymbolData with
          symbol := some symbol
          min_price := info.min_price, max_price := info.max_price
          direction := info.direction, grid_spacing := info.grid_spacing
          investment_amount := info.investment_amount
          leverage := info.leverage, total_capital := info.total_capital
          asset_type := info.asset_type, market_type := info.market_type
          co_type := info.co_type, start_price := info.start_price
          each_order_size := info.each_order_size
          position := copy_loaded_position position
          his_order := loaded.1
          last_filled_time := lft
          statusFlag := true }
        (acc.1 ++ [(symbol, sd)], acc.2 + 1)

/-- GridStrategy.load_strategy (grid.py lines 895-1048): fetch all
positions (none models a failed fetch), keep those with a truthy id and
size > 0, give up when none remain or the data directory is missing, and
fold the per-position loader over them.  Returns the registry afterwards
and the loaded count. -/
def load_strategy (ds : DataStore) (data_dir_exists : Bool)
    (all_positions : Option (List Position))
    (reg : List (String × SymbolData)) : List (String × SymbolData) × Nat :=
  match all_positions with
  | none => (reg, 0)
  | some ps =>
    if ps.isEmpty then (reg, 0)
    else
      let valid := ps.filter fun pos => posIdTruthy pos.id && decide (0 < pos.size)
      if valid.isEmpty then (reg, 0)
      else if !data_dir_exists then (reg, 0)
      else valid.foldl (load_step ds) (reg, 0)

/-! ### The delete endpoint (src/app.py lines 358-393, claim C6) -/

/-- Look up a symbol's strategy data in the registry (a Python dict). -/
def registry_lookup : List (String × SymbolData) → String → Option SymbolData
  | [], _ => none
  | e :: t, s => if e.1 == s then some e.2 else registry_lookup t s

/-- Remove a symbol's entry from the registry (Python del). -/
def registry_remove : List (String × SymbolData) → String → List (String × SymbolData)
  | [], _ => []
  | e :: t, s => if e.1 == s then registry_remove t s else e :: registry_remove t s

/-- GridStrategy._stop_symbol reached through stop(symbol) (grid.py lines
1624-1695): a warning and no-op when the symbol is unknown; otherwise set
_status false, cancel every fetched open order with a truthy id
(open_orders none models a failed fetch), and clear the tracked orders.
Returns the registry afterwards and the cancelled ids. -/
def stop_symbol_update (open_orders : Option (List OrderInfo))
    (reg : List (String × SymbolData)) (s : String) :
    List (String × SymbolData) × List String :=
  match registry_lookup reg s with
  | none => (reg, [])
  | some _ =>
    let cancels := match open_orders with
      | some l => l.filterMap fun o =>
          match o.id with
          | some i => if i ≠ "" then some i else none
          | none => none
      | none => []
    (reg.map fun e =>
       if e.1 == s then
         (e.1, { e.2 with statusFlag := false, buy_order := none, sell_order := none })
       else e,
     cancels)

/-- Outcome of the DELETE /api/strategies endpoint. -/
inductive DeleteOutcome where
  | ok
  | notFound
deriving Repr, DecidableEq

/-- delete_strategy (src/app.py lines 358-393): normalize the symbol, stop
the strategy first (whatever its status), then remove it from the
registry, or answer 404 when it is not registered.  The handler never
touches the persisted data directory, so the DataStore passes through. -/
def delete_strategy (open_orders : Option (List OrderInfo))
    (reg : List (String × SymbolData)) (ds : DataStore) (symbol : String) :
    DeleteOutcome × List (String × SymbolData) × DataStore × List String :=
  let s := pyUpper (pyStrip symbol)
  let stopped := stop_symbol_update open_orders reg s
  if stopped.1.any (fun e => e.1 == s) then
    (.ok, registry_remove stopped.1 s, ds, stopped.2)
  else
    (.notFound, stopped.1, ds, stopped.2)

/-! ### MsxExchange.fetch_positions (src/msx/exchange.py 1359-1412, C9) -/

/-- One entry of the venue's posList payload, reduced to the fields the
parser reads.  The raw id field is kept as Option Int: none stands for a
Python-falsy value, which the parser maps to id None. -/
structure RawPos where
  symbol : String
  id : Option Int
  nowVolTotal : ℚ
  nowAmtTotal : ℚ
  avgPrice : ℚ
  pnl : ℚ
  liqPrice : ℚ
  ctime : Nat
  longFlag : Int
  posMargin : ℚ
deriving Repr, DecidableEq

/-- The three shapes of the venue's /pos/list response that the parser
distinguishes: a failed request, a payload whose posList is not a list,
and a proper list of entries (a missing or null posList becomes the
empty list through the `or []` default). -/
inductive PosListResp where
  | fail
  | notList
  | ok (ps : List RawPos)
deriving Repr, DecidableEq

/-- Exchange.py lines 1393-1403: one posList entry parsed into a Position. -/
def raw_to_position (p : RawPos) : Position :=
  { id := p.id.map PosIdVal.num
    size := p.nowVolTotal, amount := p.nowAmtTotal, entryPrice := p.avgPrice
    unrealizedPnl := p.pnl, liquidationPrice := p.liqPrice
    timestamp := p.ctime
    side := if p.longFlag = 1 then "long" else "short"
    rawTruthy := true, rawPosMargin := p.posMargin }

/-- The marker Position returned at exchange.py line 1383 when posList is
not a list and a symbol was requested. -/
def not_list_marker : Position :=
  { Position.default with id := some (.tag "no pos 1137") }

/-- MsxExchange.fetch_positions (exchange.py lines 1359-1412): None on a
failed request; with a symbol, a one-element size-0 Position when posList
is malformed or contains no entry for that symbol; without a symbol, the
possibly-empty parsed list. -/
def fetch_positions (symbol : Option String) (resp : PosListResp) :
    Option (List Position) :=
  match resp with
  | .fail => none
  | .notList =>
    match symbol with
    | some _ => some [not_list_marker]
    | none => some []
  | .ok ps =>
    let result := (ps.filter fun p =>
        match symbol with
        | none => true
        | some s => pyStrip p.symbol == s).map raw_to_position
    match symbol with
    | some _ => if result.isEmpty then some [Position.default] else some result
    | none => some result

/-! ### Concrete values used by witnesses and counterexamples -/

/-- A symbol dict with the spec's running example: spacing 0.5 percent,
range 3000 to 3700, long, position of size 2. -/
def sdC1 : SymbolData :=
  { createSymbolData with
    grid_spacing := some (1/200), min_price := some 3000
    max_price := some 3700, direction := some "long"
    position := { Position.default with size := 2 } }

/-- An admission request with an inverted price range. -/
def pC3 : StartParams :=
  { symbol := "ETHUSDT", min_price := 5, max_price := 3, direction := "long"
    grid_spacing := 1/200, investment_amount := 1000, leverage := 10
    asset_type := "crypto", market_type := "contract", co_type_param := none }

/-- A benign adapter environment for admission. -/
def envC3 : StartEnv :=
  { account_fetch_raises := false, balance := 100000, positions := none }

/-- A running, not yet initialized strategy whose grid order size fails the
minimum-notional check: each_order_size is 1000 times (1/10) over a range
of 100, so 1, and 1 times min_price 1 is below min_order_size 10. -/
def sdC4 : SymbolData :=
  { createSymbolData with
    statusFlag := true, total_capital := some 1000
    min_price := some 1, max_price := some 101, grid_spacing := some (1/10) }

/-- A persisted configuration snapshot for position id 7, recording a
last_filled_time of 200. -/
def infoC5 : StrategyInfoFile :=
  { pos_id := some (.num 7), symbol := "ethusdt", min_price := some 3000
    max_price := some 3700, direction := some "long"
    grid_spacing := some (1/200), investment_amount := some 1000
    leverage := some 10, total_capital := some 10000
    asset_type := some "crypto", market_type := some "contract"
    co_type := some 3, start_price := some 3350
    each_order_size := some (5/7), last_filled_time := 200, saved_at := "t0" }

/-- One persisted ledger row with timestamp 120 (below the snapshot's 200). -/
def recC5 : TradeRec :=
  { order_id := some "o1", symbol := "ETHUSDT", side := "buy", open_type := 1
    price := 3350, volume := 1, pnl := 2, fee := 1/10, timestamp := 120
    status := "filled", pos_id := some (.num 7), avg_price := 3350 }

/-- A live exchange position with id 7 and nonzero size. -/
def posC5 : Position :=
  { Position.default with
    id := some (.num 7), size := 2, entryPrice := 3350, rawTruthy := true }

/-- A data store holding the snapshot and a one-row ledger for id 7. -/
def dsC5 : DataStore :=
  { json_files := [(.num 7, infoC5)]
    csv_files := [(.num 7, [.header, .row recC5])] }

/-- A registry holding one Running (not Stopped) strategy. -/
def regC6 : List (String × SymbolData) :=
  [("ETHUSDT", { createSymbolData with symbol := some "ETHUSDT", statusFlag := true })]

/-- An empty data store. -/
def dsEmpty : DataStore := { json_files := [], csv_files := [] }

/-- A strategy state whose tracked position has no id (fresh template). -/
def sdC10 : SymbolData := createSymbolData

/-- A newly filled closed order carrying no position id of its own. -/
def oC10 : OrderInfo :=
  { id := some "x1", price := 3383, volume := 1, side := "buy"
    status := "filled", timestamp := 100, msg := none, pnl := 0, fee := 0
    avgPrice := 3383, amount := 3383, open_type := 1, code := 0 }

/-- A strategy state with a truthy tracked position id, for the persistence
scenarios. -/
def sdC8 : SymbolData :=
  { createSymbolData with
    symbol := some "ETHUSDT", min_price := some 3000, max_price := some 3700
    position := { Position.default with id := some (.num 9), size := 1 } }

/-! ## Helper lemmas -/

/-- A limit order request with a positive volume and a price always reaches
the adapter. -/
theorem execute_limit_some (symbol side : String) (v : ℚ) (ot : Nat) (price : ℚ)
    (hv : 0 < v) :
    execute_order_request symbol side v ot (some price) "limit" =
      some { symbol := symbol, side := side, volume := v, open_type := ot
             price := some price, order_type := "limit" } := by
  unfold execute_order_request
  rw [if_neg (not_le.mpr hv), if_neg]
  simp

/-! ## Claim C1 -/

/-- Claim C1: with grid_spacing g, min_price and max_price set and a
positive reference volume V, _place_grid_orders prices the new buy at
P times (1 - g) and the new sell at P times (1 + g); the buy is submitted
exactly when that price is at least min_price, the sell exactly when its
price is at most max_price and the position size is positive, with sell
volume min(position.size, V); and at P = 3400, g = 0.005 the prices are
exactly 3383 and 3417. -/
theorem c1_place_grid_orders (sd : SymbolData) (symbol : String)
    (g mn mx P V : ℚ)
    (hg : sd.grid_spacing = some g) (hmn : sd.min_price = some mn)
    (hmx : sd.max_price = some mx) (hV : 0 < V) :
    place_grid_orders sd symbol (some P) (some V) =
      ((if mn ≤ P * (1 - g) then
          [{ symbol := symbol
             side := if sd.direction = some "long" then "buy" else "sell"
             volume := V
             open_type := if sd.direction = some "long" then 1 else 2
             price := some (P * (1 - g)), order_type := "limit" }]
        else []) ++
       (if P * (1 + g) ≤ mx ∧ 0 < sd.position.size then
          [{ symbol := symbol
             side := if sd.direction = some "long" then "buy" else "sell"
             volume := min sd.position.size V
             open_type := if sd.direction = some "long" then 2 else 1
             price := some (P * (1 + g)), order_type := "limit" }]
        else [])) ∧
    (3400 : ℚ) * (1 - 1/200) = 3383 ∧ (3400 : ℚ) * (1 + 1/200) = 3417 := by
  refine ⟨?_, by norm_num, by norm_num⟩
  unfold place_grid_orders
  rw [hg, hmn, hmx]
  dsimp only
  rw [if_neg (not_le.mpr hV)]
  congr 1
  · by_cases hb : mn ≤ P * (1 - g)
    · rw [if_pos (ge_iff_le.mpr hb), if_pos hb,
        execute_limit_some symbol _ V _ _ hV]
      rfl
    · rw [if_neg (fun h => hb (ge_iff_le.mp h)), if_neg hb]
  · by_cases hs : P * (1 + g) ≤ mx ∧ 0 < sd.position.size
    · rw [if_pos ⟨hs.1, gt_iff_lt.mpr hs.2⟩, if_pos hs,
        execute_limit_some symbol _ _ _ _ (lt_min hs.2 hV)]
      rfl
    · rw [if_neg, if_neg hs]
      intro h
      exact hs ⟨h.1, gt_iff_lt.mp h.2⟩

/-- Witness for C1: the running example, a long strategy over 3000..3700
with position size 2, fill price 3400, volume 1: both orders submitted,
buy at 3383, sell at 3417 with volume 1. -/
theorem c1_witness :
    place_grid_orders sdC1 "ETHUSDT" (some 3400) (some 1) =
      ((if (3000 : ℚ) ≤ 3400 * (1 - 1/200) then
          [{ symbol := "ETHUSDT"
             side := if sdC1.direction = some "long" then "buy" else "sell"
             volume := 1
             open_type := if sdC1.direction = some "long" then 1 else 2
             price := some ((3400 : ℚ) * (1 - 1/200)), order_type := "limit" }]
        else []) ++
       (if (3400 : ℚ) * (1 + 1/200) ≤ 3700 ∧ 0 < sdC1.position.size then
          [{ symbol := "ETHUSDT"
             side := if sdC1.direction = some "long" then "buy" else "sell"
             volume := min sdC1.position.size 1
             open_type := if sdC1.direction = some "long" then 2 else 1
             price := some ((3400 : ℚ) * (1 + 1/200)), order_type := "limit" }]
        else [])) ∧
    (3400 : ℚ) * (1 - 1/200) = 3383 ∧ (3400 : ℚ) * (1 + 1/200) = 3417 :=
  c1_place_grid_orders sdC1 "ETHUSDT" (1/200) 3000 3700 3400 1 rfl rfl rfl
    (by norm_num)

/-! ## Claim C2 -/

/-- Claim C2: on a steady-state tick a tracked order is classified filled
exactly when its id is absent from the adapter's open-order id set; when
both sides are filled the engine re-anchors from the head (most recent)
closed order and cancels nothing; when only the buy is filled it cancels
the tracked sell, if one with an id is tracked, and re-anchors from the
filled buy's price and volume; symmetrically for the sell; and when
neither is filled it cancels nothing and places nothing. -/
theorem c2_check_order (buy sell : Option OrderInfo) (opens : List OrderInfo)
    (his : Option (List OrderInfo)) :
    ((∀ b, buy = some b →
        (order_filled buy (order_id_set opens) = true ↔
          optIdMem b.id (order_id_set opens) = false)) ∧
      (buy = none → order_filled buy (order_id_set opens) = false)) ∧
    (order_filled buy (order_id_set opens) = true →
      order_filled sell (order_id_set opens) = true →
      (check_order_resolution buy sell opens his).cancelled = [] ∧
      (check_order_resolution buy sell opens his).reanchor =
        (match his with
         | some (last :: _) => some (last.price, last.volume)
         | _ => none)) ∧
    (∀ b, buy = some b →
      order_filled buy (order_id_set opens) = true →
      order_filled sell (order_id_set opens) = false →
      check_order_resolution buy sell opens his =
        ⟨cancel_ids_of sell, some (b.price, b.volume)⟩) ∧
    (∀ s, sell = some s →
      order_filled sell (order_id_set opens) = true →
      order_filled buy (order_id_set opens) = false →
      check_order_resolution buy sell opens his =
        ⟨cancel_ids_of buy, some (s.price, s.volume)⟩) ∧
    (order_filled buy (order_id_set opens) = false →
      order_filled sell (order_id_set opens) = false →
      check_order_resolution buy sell opens his = ⟨[], none⟩) := by
  refine ⟨⟨?_, ?_⟩, ?_, ?_, ?_, ?_⟩
  · intro b hb
    subst hb
    unfold order_filled
    cases h : optIdMem b.id (order_id_set opens) <;> simp [h]
  · intro h
    subst h
    rfl
  · intro hb hs
    unfold check_order_resolution
    dsimp only
    rw [hb, hs]
    cases his with
    | none => exact ⟨rfl, rfl⟩
    | some l => cases l with
      | nil => exact ⟨rfl, rfl⟩
      | cons a t => exact ⟨rfl, rfl⟩
  · intro b hb hbf hsf
    unfold check_order_resolution
    dsimp only
    rw [hbf, hsf, hb]
    rfl
  · intro s hs hsf hbf
    unfold check_order_resolution
    dsimp only
    rw [hbf, hsf, hs]
    rfl
  · intro hbf hsf
    unfold check_order_resolution
    dsimp only
    rw [hbf, hsf]
    rfl

/-- Passing validation pins the numeric parameters inside their legal
ranges. -/
theorem validate_start_none (reg : List (String × SymbolData)) (p : StartParams)
    (h : validate_start_params reg p = none) :
    p.min_price < p.max_price ∧ 0 < p.grid_spacing ∧ p.grid_spacing < 1 ∧
    0 < p.leverage ∧ p.leverage ≤ 100 := by
  unfold validate_start_params at h
  by_cases h1 : pyStrip p.symbol = ""
  case pos => rw [if_pos h1] at h; exact Option.noConfusion h
  rw [if_neg h1] at h
  by_cases h2 : reg.any (fun e => e.1 == pyUpper (pyStrip p.symbol)) = true
  case pos => rw [if_pos h2] at h; exact Option.noConfusion h
  rw [if_neg h2] at h
  by_cases h3 : p.min_price ≤ 0
  case pos => rw [if_pos h3] at h; exact Option.noConfusion h
  rw [if_neg h3] at h
  by_cases h4 : p.max_price ≤ 0
  case pos => rw [if_pos h4] at h; exact Option.noConfusion h
  rw [if_neg h4] at h
  by_cases h5 : p.min_price ≥ p.max_price
  case pos => rw [if_pos h5] at h; exact Option.noConfusion h
  rw [if_neg h5] at h
  by_cases h6 : ¬(pyLower p.direction = "long" ∨ pyLower p.direction = "short")
  case pos => rw [if_pos h6] at h; exact Option.noConfusion h
  rw [if_neg h6] at h
  by_cases h7 : p.grid_spacing ≤ 0 ∨ p.grid_spacing ≥ 1
  case pos => rw [if_pos h7] at h; exact Option.noConfusion h
  rw [if_neg h7] at h
  by_cases h8 : p.investment_amount ≤ 0
  case pos => rw [if_pos h8] at h; exact Option.noConfusion h
  rw [if_neg h8] at h
  by_cases h9 : p.leverage ≤ 0
  case pos => rw [if_pos h9] at h; exact Option.noConfusion h
  rw [if_neg h9] at h
  by_cases h10 : p.leverage > 100
  case pos => rw [if_pos h10] at h; exact Option.noConfusion h
  push_neg at h5 h7 h9 h10
  exact ⟨h5, h7.1, h7.2, h9, h10⟩

/-! ## Claim C3 -/

/-- Claim C3: whenever min_price >= max_price, or grid_spacing lies outside
the open interval (0,1), or leverage lies outside (0,100], start() returns
a structured result with status failed (it catches every raise) and the
registry of strategies is returned unchanged. -/
theorem c3_start_invalid (env : StartEnv) (reg : List (String × SymbolData))
    (p : StartParams)
    (h : p.min_price ≥ p.max_price ∨ ¬(0 < p.grid_spacing ∧ p.grid_spacing < 1) ∨
         ¬(0 < p.leverage ∧ p.leverage ≤ 100)) :
    (grid_start env reg p).1.status = "failed" ∧ (grid_start env reg p).2 = reg := by
  cases hv : validate_start_params reg p with
  | some m =>
    unfold grid_start
    rw [hv]
    exact ⟨rfl, rfl⟩
  | none =>
    exfalso
    obtain ⟨hpr, hg1, hg2, hl1, hl2⟩ := validate_start_none reg p hv
    rcases h with h | h | h
    · exact absurd hpr (not_lt.mpr h)
    · exact h ⟨hg1, hg2⟩
    · exact h ⟨hl1, hl2⟩

/-- Witness for C3: an admission request with min_price 5 above max_price 3
fails and leaves the empty registry empty. -/
theorem c3_witness :
    (grid_start envC3 [] pC3).1.status = "failed" ∧ (grid_start envC3 [] pC3).2 = [] :=
  c3_start_invalid envC3 [] pC3 (Or.inl (by norm_num [pC3]))

/-! ## Claim C4 -/

/-- Counterexample to C4: for a running, un-initialized strategy whose
order notional fails the minimum check, initialization raises, yet on the
very next tick the run loop (grid.py line 479) invokes _init_ again for
the unchanged state — the claim's "no automatic retry of initialization
occurs on later ticks" is false. -/
theorem c4_counterexample :
    init_each_order_size sdC4 = .error "order notional below minimum" ∧
    run_tick_invokes_init (run_tick_init sdC4 true) true = true := by
  have h1 : init_each_order_size sdC4 = .error "order notional below minimum" := by
    unfold sdC4 createSymbolData init_each_order_size
    norm_num
  refine ⟨h1, ?_⟩
  have h2 : run_tick_init sdC4 true = sdC4 := by
    unfold run_tick_init init_attempt
    rw [h1]
    have hg : run_tick_invokes_init sdC4 true = true := rfl
    rw [hg]
    rfl
  rw [h2]
  rfl

/-- Claim C4 as amended: each_order_size is total_capital times
grid_spacing over (max_price - min_price); when each_order_size times
min_price is below the minimum order notional, _init_ raises and the
strategy remains un-initialized, but the per-symbol boundary catches the
error and the run loop re-invokes initialization on every later tick
while the strategy keeps running. -/
theorem c4_each_order_size (sd : SymbolData) (tc mn mx g : ℚ)
    (htc : sd.total_capital = some tc) (h0 : 0 < tc)
    (hmn : sd.min_price = some mn) (hmx : sd.max_price = some mx)
    (hg : sd.grid_spacing = some g)
    (hr : 0 < mx - mn) (ha : 0 < (mn + mx) / 2)
    (hstat : sd.statusFlag = true) (hinit : sd.initFlag = false) :
    init_each_order_size sd =
      (if tc * g / (mx - mn) * mn < sd.min_order_size then
         .error "order notional below minimum"
       else .ok (tc * g / (mx - mn))) ∧
    (tc * g / (mx - mn) * mn < sd.min_order_size →
      run_tick_init sd true = sd ∧
      run_tick_invokes_init (run_tick_init sd true) true = true) := by
  have hsize : init_each_order_size sd =
      (if tc * g / (mx - mn) * mn < sd.min_order_size then
         .error "order notional below minimum"
       else .ok (tc * g / (mx - mn))) := by
    unfold init_each_order_size
    rw [htc]
    dsimp only
    rw [if_neg (not_le.mpr h0), hmn, hmx, hg]
    dsimp only
    have hcond : 0 < mx - mn ∧ 0 < (mn + mx) / 2 := ⟨hr, ha⟩
    rw [if_pos hcond]
  refine ⟨hsize, fun hlt => ?_⟩
  have hgate : run_tick_invokes_init sd true = true := by
    unfold run_tick_invokes_init
    rw [hstat, hinit]
    rfl
  have hfail : run_tick_init sd true = sd := by
    unfold run_tick_init
    rw [hgate]
    unfold init_attempt
    rw [hsize, if_pos hlt]
    rfl
  refine ⟨hfail, ?_⟩
  rw [hfail]
  exact hgate

/-- Witness for C4 as amended: the concrete failing configuration (capital
1000, range 1..101, spacing one tenth) indeed computes each_order_size 1,
fails the notional check, and is re-attempted on the next tick. -/
theorem c4_witness :
    (init_each_order_size sdC4 =
      (if (1000 : ℚ) * (1/10) / (101 - 1) * 1 < sdC4.min_order_size then
         .error "order notional below minimum"
       else .ok ((1000 : ℚ) * (1/10) / (101 - 1))) ∧
    ((1000 : ℚ) * (1/10) / (101 - 1) * 1 < sdC4.min_order_size →
      run_tick_init sdC4 true = sdC4 ∧
      run_tick_invokes_init (run_tick_init sdC4 true) true = true)) :=
  c4_each_order_size sdC4 1000 1 101 (1/10) rfl (by norm_num) rfl rfl rfl
    (by norm_num) (by norm_num) rfl rfl

/-! ## Claim C5 -/

/-- Counterexample to C5: recovering position id 7 (live size 2) from its
persisted snapshot registers the strategy with statusFlag true but the
initialized flag still FALSE (load_strategy never assigns it), and
last_filled_time 200 (the snapshot's persisted value, not the ledger
maximum 120) — while the claim asserts initialized=true and
last_filled_time equal to the maximum ledger timestamp. -/
theorem c5_counterexample :
    ((load_strategy dsC5 true (some [posC5]) []).1.map
        (fun e => (e.1, e.2.initFlag, e.2.statusFlag, e.2.last_filled_time))) =
      [("ETHUSDT", false, true, 200)] := rfl

/-- Claim C5 as amended: for a position with a truthy id and size > 0
whose id has a persisted snapshot (with usable symbol, matching pos_id,
not already registered), load_strategy registers a strategy built from
every persisted config field and the live position, replays the ledger
into memory, sets last_filled_time to the larger of the snapshot's
persisted value and the maximum ledger timestamp, sets _status true
(Running, no operator action) but leaves the initialized flag false, so
the initialization sequence re-runs on the first tick; a position whose
id has no snapshot file is not adopted. -/
theorem c5_load_strategy (ds : DataStore) (position : Position) (pid : PosIdVal)
    (info : StrategyInfoFile) (reg : List (String × SymbolData))
    (hid : position.id = some pid) (htr : pid.truthy = true)
    (hsz : 0 < position.size)
    (hfile : lookupJson ds pid = some info)
    (hsym : ¬ pyUpper (pyStrip info.symbol) = "")
    (hmatch : (match info.pos_id with
               | some f => f.truthy && f != pid
               | none => false) = false)
    (hfresh : reg.any (fun e => e.1 == pyUpper (pyStrip info.symbol)) = false) :
    load_strategy ds true (some [position]) reg =
      (reg ++ [(pyUpper (pyStrip info.symbol), { createSymbolData with
          symbol := some (pyUpper (pyStrip info.symbol))
          min_price := info.min_price, max_price := info.max_price
          direction := info.direction, grid_spacing := info.grid_spacing
          investment_amount := info.investment_amount
          leverage := info.leverage, total_capital := info.total_capital
          asset_type := info.asset_type, market_type := info.market_type
          co_type := info.co_type, start_price := info.start_price
          each_order_size := info.each_order_size
          position := copy_loaded_position position
          his_order := (load_orders_from_csv ds pid).1
          last_filled_time := max info.last_filled_time (load_orders_from_csv ds pid).2
          statusFlag := true
          initFlag := false })], 1) ∧
    (∀ pos2 : Position, (∀ q, pos2.id = some q → lookupJson ds q = none) →
      load_strategy ds true (some [pos2]) reg = (reg, 0)) := by
  constructor
  · have hcond : (posIdTruthy position.id && decide (0 < position.size)) = true := by
      rw [hid]
      show (pid.truthy && decide (0 < position.size)) = true
      rw [htr, decide_eq_true hsz]
      rfl
    unfold load_strategy
    dsimp only
    simp only [List.filter_cons, List.filter_nil, hcond, if_true, List.isEmpty_cons,
      Bool.false_eq_true, if_false, Bool.not_true, List.foldl]
    unfold load_step
    rw [hid]
    try dsimp only
    rw [hfile]
    try dsimp only
    rw [if_neg hsym, hmatch]
    simp only [Bool.false_eq_true, if_false]
    rw [if_neg (by rw [hfresh]; exact Bool.false_ne_true)]
    have hmax : (if info.last_filled_time < (load_orders_from_csv ds pid).2
        then (load_orders_from_csv ds pid).2 else info.last_filled_time) =
        max info.last_filled_time (load_orders_from_csv ds pid).2 := by
      by_cases hc : info.last_filled_time < (load_orders_from_csv ds pid).2
      · rw [if_pos hc, Nat.max_eq_right (Nat.le_of_lt hc)]
      · rw [if_neg hc, Nat.max_eq_left (Nat.le_of_not_lt hc)]
    rw [hmax]
    simp [createSymbolData]
  · intro pos2 hq
    unfold load_strategy
    dsimp only
    cases hcond : (posIdTruthy pos2.id && decide (0 < pos2.size)) with
    | false =>
      simp only [List.filter_cons, List.filter_nil, hcond, Bool.false_eq_true, if_false,
        List.isEmpty_nil, if_true, List.isEmpty_cons]
    | true =>
      simp only [List.filter_cons, List.filter_nil, hcond, if_true, List.isEmpty_cons,
        Bool.false_eq_true, if_false, Bool.not_true, List.foldl]
      unfold load_step
      cases hid2 : pos2.id with
      | none => rfl
      | some q =>
        dsimp only
        rw [hq q hid2]

/-- Witness for C5 as amended: recovering position id 7 from the concrete
snapshot and one-row ledger, and the non-adoption of a position with no
snapshot. -/
theorem c5_witness :
    (load_strategy dsC5 true (some [posC5]) [] =
      ([] ++ [(pyUpper (pyStrip infoC5.symbol), { createSymbolData with
          symbol := some (pyUpper (pyStrip infoC5.symbol))
          min_price := infoC5.min_price, max_price := infoC5.max_price
          direction := infoC5.direction, grid_spacing := infoC5.grid_spacing
          investment_amount := infoC5.investment_amount
          leverage := infoC5.leverage, total_capital := infoC5.total_capital
          asset_type := infoC5.asset_type, market_type := infoC5.market_type
          co_type := infoC5.co_type, start_price := infoC5.start_price
          each_order_size := infoC5.each_order_size
          position := copy_loaded_position posC5
          his_order := (load_orders_from_csv dsC5 (.num 7)).1
          last_filled_time := max infoC5.last_filled_time
            (load_orders_from_csv dsC5 (.num 7)).2
          statusFlag := true
          initFlag := false })], 1) ∧
    (∀ pos2 : Position, (∀ q, pos2.id = some q → lookupJson dsC5 q = none) →
      load_strategy dsC5 true (some [pos2]) [] = ([], 0))) :=
  c5_load_strategy dsC5 posC5 (.num 7) infoC5 [] rfl rfl
    (by norm_num [posC5, Position.default]) rfl (by decide) rfl rfl

/-! ## Claim C6 -/

/-- A registry with no entry for a key answers the any-key test false. -/
theorem any_eq_false_of_lookup_none (reg : List (String × SymbolData))
    (s : String) (h : registry_lookup reg s = none) :
    reg.any (fun e => e.1 == s) = false := by
  induction reg with
  | nil => rfl
  | cons e t ih =>
    unfold registry_lookup at h
    cases hp : (e.1 == s) with
    | true =>
      rw [if_pos hp] at h
      exact Option.noConfusion h
    | false =>
      rw [if_neg (by rw [hp]; exact Bool.false_ne_true)] at h
      rw [List.any_cons, hp, Bool.false_or]
      exact ih h

/-- A registered key answers the any-key test true. -/
theorem any_eq_true_of_lookup_some (reg : List (String × SymbolData))
    (s : String) (sd0 : SymbolData) (h : registry_lookup reg s = some sd0) :
    reg.any (fun e => e.1 == s) = true := by
  induction reg with
  | nil => exact Option.noConfusion h
  | cons e t ih =>
    unfold registry_lookup at h
    cases hp : (e.1 == s) with
    | true => rw [List.any_cons, hp, Bool.true_or]
    | false =>
      rw [if_neg (by rw [hp]; exact Bool.false_ne_true)] at h
      rw [List.any_cons, hp, Bool.false_or]
      exact ih h

/-- Rewriting one key's value in place leaves the any-key test unchanged. -/
theorem map_keyfix_any (reg : List (String × SymbolData)) (s : String)
    (f : SymbolData → SymbolData) :
    ((reg.map fun e => if e.1 == s then (e.1, f e.2) else e).any
        fun e => e.1 == s) = (reg.any fun e => e.1 == s) := by
  induction reg with
  | nil => rfl
  | cons e t ih =>
    rw [List.map_cons, List.any_cons, List.any_cons, ih]
    cases hp : (e.1 == s) with
    | true =>
      rw [if_pos (rfl : (true : Bool) = true)]
      dsimp only
      rw [hp]
    | false =>
      rw [if_neg Bool.false_ne_true, hp]

/-- Rewriting one key's value in place, then removing that key, leaves
exactly the other, untouched entries. -/
theorem remove_map_keyfix (reg : List (String × SymbolData)) (s : String)
    (f : SymbolData → SymbolData) :
    registry_remove (reg.map fun e => if e.1 == s then (e.1, f e.2) else e) s =
      registry_remove reg s := by
  induction reg with
  | nil => rfl
  | cons e t ih =>
    rw [List.map_cons]
    cases hp : (e.1 == s) with
    | true =>
      rw [if_pos (rfl : (true : Bool) = true)]
      unfold registry_remove
      dsimp only
      rw [hp]
      exact ih
    | false =>
      unfold registry_remove
      rw [ih]
      simp only [if_neg Bool.false_ne_true]

/-- Counterexample to C6: the registry holds one strategy that is Running
(statusFlag true, hence not Stopped), yet delete succeeds and removes it —
the claim says delete must fail for a non-Stopped strategy and leave it
registered. -/
theorem c6_counterexample :
    (delete_strategy (some []) regC6 dsEmpty "ethusdt").1 = DeleteOutcome.ok ∧
    (delete_strategy (some []) regC6 dsEmpty "ethusdt").2.1 = [] ∧
    (regC6.map fun e => (e.1, e.2.statusFlag)) = [("ETHUSDT", true)] :=
  ⟨rfl, rfl, rfl⟩

/-- Claim C6 as amended: delete(symbol) first stops the strategy whatever
its status (Running, Initializing or already Stopped) and then removes it
from the registry, leaving every other entry untouched; it fails (404)
only when the symbol is not registered, in which case the registry is
unchanged; in all cases the persisted configuration and ledger files are
untouched. -/
theorem c6_delete (open_orders : Option (List OrderInfo))
    (reg : List (String × SymbolData)) (ds : DataStore) (symbol : String) :
    (delete_strategy open_orders reg ds symbol).2.2.1 = ds ∧
    (registry_lookup reg (pyUpper (pyStrip symbol)) = none →
      (delete_strategy open_orders reg ds symbol).1 = DeleteOutcome.notFound ∧
      (delete_strategy open_orders reg ds symbol).2.1 = reg) ∧
    (∀ sd0, registry_lookup reg (pyUpper (pyStrip symbol)) = some sd0 →
      (delete_strategy open_orders reg ds symbol).1 = DeleteOutcome.ok ∧
      (delete_strategy open_orders reg ds symbol).2.1 =
        registry_remove reg (pyUpper (pyStrip symbol))) := by
  refine ⟨?_, ?_, ?_⟩
  · unfold delete_strategy
    dsimp only
    cases hb : ((stop_symbol_update open_orders reg (pyUpper (pyStrip symbol))).1.any
        (fun e => e.1 == pyUpper (pyStrip symbol))) with
    | true => rfl
    | false => rfl
  · intro h
    have hstop : stop_symbol_update open_orders reg (pyUpper (pyStrip symbol)) =
        (reg, []) := by
      unfold stop_symbol_update
      rw [h]
    have hany := any_eq_false_of_lookup_none reg (pyUpper (pyStrip symbol)) h
    unfold delete_strategy
    dsimp only
    rw [hstop]
    dsimp only
    rw [hany]
    exact ⟨rfl, rfl⟩
  · intro sd0 h
    have hstop1 : (stop_symbol_update open_orders reg (pyUpper (pyStrip symbol))).1 =
        reg.map fun x => if x.1 == pyUpper (pyStrip symbol) then
          (x.1, (fun sd =>
            { sd with statusFlag := false, buy_order := none, sell_order := none }) x.2)
        else x := by
      unfold stop_symbol_update
      rw [h]
    have hany : ((stop_symbol_update open_orders reg (pyUpper (pyStrip symbol))).1.any
        (fun x => x.1 == pyUpper (pyStrip symbol))) = true := by
      rw [hstop1, map_keyfix_any reg (pyUpper (pyStrip symbol)) (fun sd =>
        { sd with statusFlag := false, buy_order := none, sell_order := none })]
      exact any_eq_true_of_lookup_some reg _ sd0 h
    unfold delete_strategy
    dsimp only
    rw [hany]
    refine ⟨rfl, ?_⟩
    show registry_remove (stop_symbol_update open_orders reg (pyUpper (pyStrip symbol))).1
        (pyUpper (pyStrip symbol)) = _
    rw [hstop1, remove_map_keyfix reg (pyUpper (pyStrip symbol)) (fun sd =>
      { sd with statusFlag := false, buy_order := none, sell_order := none })]
/-! ## Claim C7 -/

/-- Membership through timestamp-ordered insertion. -/
theorem mem_sort_insert_ts (o a : OrderInfo) (l : List OrderInfo) :
    a ∈ sort_insert_ts o l ↔ a = o ∨ a ∈ l := by
  induction l with
  | nil => simp [sort_insert_ts]
  | cons x xs ih =>
    unfold sort_insert_ts
    by_cases hc : o.timestamp ≤ x.timestamp
    · rw [if_pos hc]
      simp
    · rw [if_neg hc]
      simp only [List.mem_cons, ih]
      tauto

/-- Sorting by timestamp preserves membership. -/
theorem mem_sort_by_ts (a : OrderInfo) (l : List OrderInfo) :
    a ∈ sort_by_ts l ↔ a ∈ l := by
  induction l with
  | nil => simp [sort_by_ts]
  | cons x xs ih =>
    unfold sort_by_ts
    rw [mem_sort_insert_ts]
    simp only [List.mem_cons, ih]

/-- One statistics pass never lowers the watermark. -/
theorem process_stat_mono (symbol : String) (sd : SymbolData)
    (f : Option (List OrderInfo)) :
    sd.last_filled_time ≤ (process_order_statistics symbol sd f).sd.last_filled_time := by
  unfold process_order_statistics
  cases f with
  | none => exact le_refl _
  | some l =>
    dsimp only
    split
    · exact le_refl _
    · split
      · exact le_refl _
      · split
        · exact le_refl _
        · split
          · split
            · exact le_max_left _ _
            · exact le_refl _
          · exact le_refl _

/-- One statistics pass only appends records, and every appended record's
timestamp is strictly above the old watermark. -/
theorem process_stat_appends (symbol : String) (sd : SymbolData)
    (f : Option (List OrderInfo)) :
    ∃ ap, (process_order_statistics symbol sd f).sd.his_order = sd.his_order ++ ap ∧
      ∀ r ∈ ap, sd.last_filled_time < r.timestamp := by
  unfold process_order_statistics
  cases f with
  | none => exact ⟨[], by simp, by simp⟩
  | some l =>
    dsimp only
    split
    · exact ⟨[], by simp, by simp⟩
    · split
      · exact ⟨[], by simp, by simp⟩
      · split
        · exact ⟨[], by simp, by simp⟩
        · split
          · split
            · refine ⟨_, rfl, ?_⟩
              intro r hr
              obtain ⟨o, ho, rfl⟩ := List.mem_map.mp hr
              have ho2 := (mem_sort_by_ts o _).mp ho
              have := List.of_mem_filter ho2
              exact of_decide_eq_true this
            · refine ⟨_, rfl, ?_⟩
              intro r hr
              obtain ⟨o, ho, rfl⟩ := List.mem_map.mp hr
              have ho2 := (mem_sort_by_ts o _).mp ho
              have := List.of_mem_filter ho2
              exact of_decide_eq_true this
          · exact ⟨[], by simp, by simp⟩

/-- Folding statistics passes never lowers the watermark. -/
theorem process_stat_seq_mono (symbol : String) (sd : SymbolData)
    (fs : List (Option (List OrderInfo))) :
    sd.last_filled_time ≤ (process_stat_seq symbol sd fs).last_filled_time := by
  induction fs generalizing sd with
  | nil => exact le_refl _
  | cons f fs ih =>
    exact le_trans (process_stat_mono symbol sd f)
      (ih (process_order_statistics symbol sd f).sd)

/-- Claim C7: a statistics pass only ingests closed orders with timestamp
strictly above the current last_filled_time (they are the only records
appended), a single pass never lowers last_filled_time, and across any
sequence of passes — whatever order the closed-order fetches return —
last_filled_time is non-decreasing. -/
theorem c7_last_filled_time_monotone (symbol : String) (sd : SymbolData)
    (f : Option (List OrderInfo)) (fs : List (Option (List OrderInfo))) :
    sd.last_filled_time ≤ (process_order_statistics symbol sd f).sd.last_filled_time ∧
    (∃ ap, (process_order_statistics symbol sd f).sd.his_order = sd.his_order ++ ap ∧
      ∀ r ∈ ap, sd.last_filled_time < r.timestamp) ∧
    sd.last_filled_time ≤ (process_stat_seq symbol sd fs).last_filled_time :=
  ⟨process_stat_mono symbol sd f, process_stat_appends symbol sd f,
   process_stat_seq_mono symbol sd fs⟩

/-! ## Claim C10 -/

/-- Claim C10 is wrong about the code: with a tracked position that has no
id and a newly filled closed order (timestamp 100 above the watermark 0),
the statistics pass raises (OrderInfo has no posId attribute, so the
chain at grid.py lines 655-660 hits AttributeError) — the record is NOT
appended to the in-memory history, nothing is persisted, and
last_filled_time does not advance, so the same order is re-processed (and
crashes again) every later tick. -/
theorem c10_pos_id_crash :
    process_order_statistics "ETHUSDT" sdC10 (some [oC10]) =
      ⟨sdC10, [], true⟩ ∧
    sdC10.position.id = none ∧ sdC10.last_filled_time = 0 ∧
    oC10.timestamp = 100 ∧ oC10.status = "filled" :=
  ⟨rfl, rfl, rfl, rfl, rfl⟩
/-! ## Claim C8 -/

/-- Finding a key right after storing it yields the stored value. -/
theorem assocFind_assocSet {α : Type} (l : List (PosIdVal × α))
    (k : PosIdVal) (v : α) : assocFind (assocSet l k v) k = some v := by
  induction l with
  | nil =>
    unfold assocSet assocFind
    rw [if_pos (by simp)]
  | cons e t ih =>
    unfold assocSet
    by_cases hp : (e.1 == k) = true
    · rw [if_pos hp]
      unfold assocFind
      rw [if_pos hp]
    · rw [if_neg hp]
      unfold assocFind
      rw [if_neg hp]
      exact ih

/-- What _persist_strategy_info does once the position id is already
resolved on the tracked position: skip when the snapshot file exists,
write it otherwise. -/
theorem persist_info_resolved (ds : DataStore) (symbol : String)
    (sd : SymbolData) (fetched : Option (List Position)) (saved_at : String)
    (pid : PosIdVal) (hid : sd.position.id = some pid)
    (htr : pid.truthy = true) :
    persist_strategy_info ds symbol sd fetched saved_at =
      (match lookupJson ds pid with
       | some _ => (ds, sd)
       | none =>
         ({ ds with json_files := assocSet ds.json_files pid (strategy_snapshot symbol pid sd saved_at) },
          sd)) := by
  unfold persist_strategy_info
  rw [hid]
  simp only [posIdTruthy, htr, if_true]

/-- Looking the ledger file up right after writing it yields its content. -/
theorem lookupCsv_setCsv (ds : DataStore) (k : PosIdVal) (c : List CsvLine) :
    lookupCsv (setCsv ds k c) k = some c := by
  unfold lookupCsv setCsv
  exact assocFind_assocSet _ _ _

/-- The append-mode write on an existing ledger file appends one data row. -/
theorem persist_order_to_csv_existing (ds : DataStore) (pid : PosIdVal)
    (c : List CsvLine) (r : TradeRec) (h : lookupCsv ds pid = some c) :
    persist_order_to_csv ds pid r = setCsv ds pid (c ++ [CsvLine.row r]) := by
  unfold persist_order_to_csv
  rw [h]

/-- The write that creates the ledger file writes the header and one row. -/
theorem persist_order_to_csv_new (ds : DataStore) (pid : PosIdVal)
    (r : TradeRec) (h : lookupCsv ds pid = none) :
    persist_order_to_csv ds pid r =
      setCsv ds pid [CsvLine.header, CsvLine.row r] := by
  unfold persist_order_to_csv
  rw [h]

/-- Claim C8: the configuration snapshot {pos_id}.json is written only when
absent — with the file present the whole store is returned unchanged, and
a repeated call after the first write is a no-op — and the ledger CSV gets
its header exactly once, on the write that creates the file, every later
write appending exactly one data row. -/
theorem c8_persistence (ds : DataStore) (symbol : String) (sd : SymbolData)
    (fetched : Option (List Position)) (saved_at saved2 : String)
    (pid : PosIdVal) (r r2 : TradeRec) :
    (∀ f0, lookupJson ds pid = some f0 → sd.position.id = some pid →
       pid.truthy = true →
       persist_strategy_info ds symbol sd fetched saved_at = (ds, sd)) ∧
    (sd.position.id = some pid → pid.truthy = true →
       (persist_strategy_info
          (persist_strategy_info ds symbol sd fetched saved_at).1
          symbol sd fetched saved2).1 =
        (persist_strategy_info ds symbol sd fetched saved_at).1) ∧
    (lookupCsv ds pid = none →
       lookupCsv (persist_order_to_csv ds pid r) pid =
         some [CsvLine.header, CsvLine.row r]) ∧
    (∀ c, lookupCsv ds pid = some c →
       lookupCsv (persist_order_to_csv ds pid r) pid =
         some (c ++ [CsvLine.row r])) ∧
    (lookupCsv ds pid = none →
       lookupCsv (persist_order_to_csv (persist_order_to_csv ds pid r) pid r2)
           pid =
         some [CsvLine.header, CsvLine.row r, CsvLine.row r2]) := by
  have hcsv_new : lookupCsv ds pid = none →
      lookupCsv (persist_order_to_csv ds pid r) pid =
        some [CsvLine.header, CsvLine.row r] := by
    intro h
    rw [persist_order_to_csv_new ds pid r h, lookupCsv_setCsv]
  refine ⟨?_, ?_, hcsv_new, ?_, ?_⟩
  · intro f0 hf hid htr
    rw [persist_info_resolved ds symbol sd fetched saved_at pid hid htr, hf]
  · intro hid htr
    rw [persist_info_resolved ds symbol sd fetched saved_at pid hid htr]
    cases hj : lookupJson ds pid with
    | some f0 =>
      dsimp only
      rw [persist_info_resolved ds symbol sd fetched saved2 pid hid htr, hj]
    | none =>
      dsimp only
      rw [persist_info_resolved _ symbol sd fetched saved2 pid hid htr]
      have hfound : lookupJson { ds with json_files := assocSet ds.json_files pid (strategy_snapshot symbol pid sd saved_at) } pid =
          some (strategy_snapshot symbol pid sd saved_at) := by
        unfold lookupJson
        exact assocFind_assocSet _ _ _
      rw [hfound]
  · intro c h
    rw [persist_order_to_csv_existing ds pid c r h, lookupCsv_setCsv]
  · intro h
    have h1 := hcsv_new h
    rw [persist_order_to_csv_existing _ pid _ r2 h1, lookupCsv_setCsv]
    rfl

/-- Sanity check: two ledger writes from an empty store produce one header
and two rows, evaluated concretely. -/
theorem persist_csv_example :
    lookupCsv (persist_order_to_csv (persist_order_to_csv dsEmpty (.num 9) recC5)
        (.num 9) recC5) (.num 9) =
      some [CsvLine.header, CsvLine.row recC5, CsvLine.row recC5] := rfl

/-- Sanity check: a repeated snapshot write for a resolved position id is a
no-op, evaluated concretely. -/
theorem persist_info_example :
    (persist_strategy_info (persist_strategy_info dsEmpty "ETHUSDT" sdC8 none
        "t1").1 "ETHUSDT" sdC8 none "t2").1 =
      (persist_strategy_info dsEmpty "ETHUSDT" sdC8 none "t1").1 := rfl

/-! ## Claim C9 -/

/-- Claim C9: fetch_positions called with a symbol never returns an empty
list on a successful venue response — when the venue reports no position
for that symbol the result is the one-element list holding a Position of
size 0 and id None; without a symbol it may return an empty list; and a
failed venue request returns None. -/
theorem c9_fetch_positions (s : String) (resp : PosListResp)
    (ps : List RawPos) :
    fetch_positions (some s) PosListResp.fail = none ∧
    (resp ≠ PosListResp.fail →
      ∃ l, fetch_positions (some s) resp = some l ∧ l ≠ []) ∧
    ((ps.filter fun p => pyStrip p.symbol == s).isEmpty = true →
      fetch_positions (some s) (PosListResp.ok ps) = some [Position.default]) ∧
    (Position.default.size = 0 ∧ Position.default.id = none) ∧
    fetch_positions none (PosListResp.ok []) = some [] ∧
    fetch_positions none PosListResp.fail = none := by
  refine ⟨rfl, ?_, ?_, ⟨rfl, rfl⟩, rfl, rfl⟩
  · intro hne
    cases resp with
    | fail => exact absurd rfl hne
    | notList => exact ⟨[not_list_marker], rfl, by simp⟩
    | ok qs =>
      unfold fetch_positions
      dsimp only
      by_cases he : ((qs.filter fun p => pyStrip p.symbol == s).map
          raw_to_position).isEmpty = true
      · rw [if_pos he]
        exact ⟨[Position.default], rfl, by simp⟩
      · rw [if_neg he]
        refine ⟨_, rfl, ?_⟩
        intro hnil
        rw [hnil] at he
        exact he rfl
  · intro he
    unfold fetch_positions
    dsimp only
    rw [if_pos]
    rw [List.isEmpty_iff] at he
    rw [he]
    rfl

end Msx
